import Mathlib

/-!
# Portfolio static-fix scripts: shallow embedding and verification

This file embeds the client-side portfolio filter / load-more controllers of
the repository in Lean and proves the behavioural contract stated in the
specification.

The repository ships three variants of the same feature:

* the *interceptor* variant (`static-fix.js`): a global click interceptor with
  a pre-initialization pending queue, `applyFilter`, `renderBatch`,
  `updateButtonState`, `syncHoverImages`; item categories are lower-cased when
  the master list is captured;
* the *vanilla* variant (first script of the unnamed file): same rendering
  pipeline, but categories are stored as written in the markup and lower-cased
  only when compared, and its filter-button click handler has no guard for the
  already-active button;
* the *jQuery* variant (second script of the unnamed file):
  `PortfolioLoadMore` toggling item visibility in place, whose
  `updateButtonState` iterates with a callback bound to the controller
  instance, so its per-item attribute reads return `undefined` — no item
  ever counts as visible there, and items count as matching only under the
  `all` filter; it also caps at a `data-max` attribute.

DOM elements are modelled by records of the attributes the scripts read;
DOM mutations by pure state transformers.
-/

set_option autoImplicit false

namespace Portfolio

/-- A DOM element of the portfolio list as the scripts see it: its `id` and
its `data-category` attribute (`none` when the attribute is absent). -/
structure DomItem where
  id : String
  dataCategory : Option String
deriving DecidableEq, Repr

/-- A captured master-list entry: the cloned element, its id and the category
string computed at capture time. -/
structure Item where
  element : DomItem
  id : String
  category : String
deriving DecidableEq, Repr

/-- A filter control: its `data-filter` attribute and whether it currently
carries the `active` class. -/
structure FilterBtn where
  dataFilter : Option String
  active : Bool
deriving DecidableEq, Repr

/-- A preview image in the auxiliary panel: its `data-id` attribute and
whether it is currently displayed. -/
structure PreviewImg where
  dataId : Option String
  visible : Bool
deriving DecidableEq, Repr

/-- `CONFIG.ITEMS_PER_BATCH` in both the interceptor and the vanilla
variant. -/
def ITEMS_PER_BATCH : Nat := 8

/-- JavaScript's `String.prototype.toLowerCase()` on the ASCII category and
filter slugs used here: lower-case every character. (Stated directly over
the character list so that it reduces by computation.) -/
def jsToLower (s : String) : String := ⟨s.data.map Char.toLower⟩

/-- The controller state: the module-level variables of the script together
with the DOM subtree it controls (list children, load-more control fields,
filter controls, preview images). -/
structure PState where
  masterItems : List Item
  filteredItems : List Item
  renderedCount : Nat
  listDom : List DomItem
  btnDisabled : Bool
  textMainVisible : Bool
  textNoVisible : Bool
  filterBtns : List FilterBtn
  previews : List PreviewImg
deriving DecidableEq, Repr

/-- Master-list capture of the interceptor variant (`static-fix.js`):
`(item.getAttribute('data-category') || 'uncategorized').toLowerCase()`. -/
def captureItem (d : DomItem) : Item :=
  { element := d
    id := d.id
    category := jsToLower (d.dataCategory.getD "uncategorized") }

/-- Master-list capture of the vanilla variant:
`item.getAttribute('data-category') || 'uncategorized'` (no lower-casing). -/
def captureItemV (d : DomItem) : Item :=
  { element := d
    id := d.id
    category := d.dataCategory.getD "uncategorized" }

/-- The filtering step of `applyFilter` in the interceptor variant: `filter`
is already lower-cased by the caller and compared to the (lower-cased at
capture) stored category. -/
def computeFiltered (master : List Item) (filter : String) : List Item :=
  if filter == "all" || filter == "" then master
  else master.filter (fun it => it.category == filter)

/-- The filtering step of `applyFilter` in the vanilla variant: the stored
category is lower-cased at comparison time. -/
def computeFilteredV (master : List Item) (filter : String) : List Item :=
  if filter == "all" || filter == "" then master
  else master.filter (fun it => jsToLower it.category == filter)

/-- `updateButtonState`: toggles the `btn--disabled` class and swaps the
`.text--main` / `.text--no-items` labels according to
`renderedCount < filteredItems.length`. -/
def updateButtonState (s : PState) : PState :=
  let hasMore := s.renderedCount < s.filteredItems.length
  if hasMore then
    { s with btnDisabled := false, textMainVisible := true, textNoVisible := false }
  else
    { s with btnDisabled := true, textMainVisible := false, textNoVisible := true }

/-- The expected visibility of one preview image given the current list
children: shown exactly when its `data-id` occurs among the rendered ids. -/
def previewVisibleSpec (listDom : List DomItem) (p : PreviewImg) : Bool :=
  match p.dataId with
  | some i => listDom.any (fun d => d.id == i)
  | none => false

/-- `syncHoverImages`: recomputes each preview image's visibility from the
ids of the items currently in the list. -/
def syncHoverImages (s : PState) : PState :=
  { s with previews := s.previews.map (fun p =>
      { p with visible := previewVisibleSpec s.listDom p }) }

/-- `renderBatch` / `renderNextBatch`: appends
`filteredItems.slice(renderedCount, min(renderedCount + 8, length))` to the
list, advances `renderedCount` to the end index, then updates the load-more
control and synchronizes the preview images. -/
def renderBatch (s : PState) : PState :=
  let start := s.renderedCount
  let stop := min (start + ITEMS_PER_BATCH) s.filteredItems.length
  let toRender := (s.filteredItems.drop start).take (stop - start)
  let s' := { s with
    listDom := s.listDom ++ toRender.map (fun it => it.element)
    renderedCount := stop }
  syncHoverImages (updateButtonState s')

/-- `applyFilter` of the interceptor variant: lower-cases the filter value,
recomputes the filtered subset, resets the cursor, clears the list and
renders the first batch. -/
def applyFilter (s : PState) (filterValue : String) : PState :=
  let filter := jsToLower filterValue
  let s' := { s with
    filteredItems := computeFiltered s.masterItems filter
    renderedCount := 0
    listDom := [] }
  renderBatch s'

/-- `applyFilter` of the vanilla variant (identical except for where the
lower-casing of categories happens). -/
def applyFilterV (s : PState) (filterValue : String) : PState :=
  let filter := jsToLower filterValue
  let s' := { s with
    filteredItems := computeFilteredV s.masterItems filter
    renderedCount := 0
    listDom := [] }
  renderBatch s'

/-- `btn.getAttribute('data-filter') || 'all'`: both a missing attribute and
an empty one fall back to `"all"`. -/
def filterValueOf (b : FilterBtn) : String :=
  let v := b.dataFilter.getD ""
  if v == "" then "all" else v

/-- The active-state update on filter controls: remove the `active` class
from every control, then add it to the control at index `i`. -/
def setActive : List FilterBtn → Nat → List FilterBtn
  | [], _ => []
  | b :: bs, 0 => { b with active := true } :: bs.map (fun x => { x with active := false })
  | b :: bs, n + 1 => { b with active := false } :: setActive bs n

/-- The interceptor's filter branch (initialized case): ignored when the
clicked control already carries the `active` class; otherwise update the
active states and apply the control's filter value. -/
def clickFilter (s : PState) (i : Nat) : PState :=
  match s.filterBtns[i]? with
  | none => s
  | some b =>
    if b.active then s
    else
      applyFilter { s with filterBtns := setActive s.filterBtns i } (filterValueOf b)

/-- The vanilla variant's filter-button handler: no active-class guard — the
filter is re-applied even when the clicked control is already active. -/
def clickFilterV (s : PState) (i : Nat) : PState :=
  match s.filterBtns[i]? with
  | none => s
  | some b =>
    applyFilterV { s with filterBtns := setActive s.filterBtns i } (filterValueOf b)

/-- The load-more branch (both the interceptor's `else if` and the vanilla
handler): renders the next batch only when `renderedCount <
filteredItems.length`; the interceptor additionally calls
`updateButtonState` once more after `renderBatch`. -/
def clickLoadMore (s : PState) : PState :=
  if s.renderedCount < s.filteredItems.length then
    updateButtonState (renderBatch s)
  else s

/-- User actions available once the controller is initialized. -/
inductive Op where
  | filter (i : Nat)
  | loadMore
deriving DecidableEq, Repr

/-- One initialized-state transition of the interceptor variant. -/
def step (s : PState) : Op → PState
  | .filter i => clickFilter s i
  | .loadMore => clickLoadMore s

/-- A sequence of user actions. -/
def run (s : PState) (ops : List Op) : PState :=
  ops.foldl step s

/-- The module-level state of the interceptor variant including the
pre-initialization queue (`pendingFilter`, `pendingLoadMore`), the
`isInitialized` flag, and the presence of the expected markup
(`.portfolio-feed.ms-p--l` container and `.ms-p-list` list). -/
structure GState where
  hasContainer : Bool
  hasList : Bool
  st : PState
  isInitialized : Bool
  pendingFilter : Option String
  pendingLoadMore : Bool
deriving DecidableEq, Repr

/-- The capture phase of `init`: builds `masterItems` from the items found in
the list (`list.querySelectorAll(ITEM_SELECTOR)`) and clears the list
(`list.innerHTML = ''`). -/
def freshCapture (s : PState) : PState :=
  { s with masterItems := s.listDom.map captureItem, listDom := [] }

/-- `init` of the interceptor variant: a no-op when already initialized or
when the container or list markup is absent (a diagnostic is logged only);
otherwise capture the master list, render the first batch via
`applyFilter('all')`, replay the pending filter (if any) and then the pending
load-more (if flagged), clear the queue and mark the controller
initialized. -/
def init (g : GState) : GState :=
  if g.isInitialized then g
  else if !g.hasContainer then g
  else if !g.hasList then g
  else
    let s0 := freshCapture g.st
    let s1 := applyFilter s0 "all"
    let s2 := match g.pendingFilter with
              | some pf => applyFilter s1 pf
              | none => s1
    let s3 := if g.pendingLoadMore then renderBatch s2 else s2
    { g with
      st := s3
      isInitialized := true
      pendingFilter := none
      pendingLoadMore := false }

/-- A click reaching the global interceptor: on a filter control (by index)
or on the load-more control. -/
inductive Click where
  | onFilter (i : Nat)
  | onLoadMore
deriving DecidableEq, Repr

/-- Whether a click is on the load-more control. -/
def Click.isLoadMore : Click → Bool
  | .onFilter _ => false
  | .onLoadMore => true

/-- The global click interceptor. Before initialization it only queues: a
filter click overwrites `pendingFilter` with the clicked control's value and
a load-more click sets `pendingLoadMore`. After initialization it dispatches
to the filter branch (guarded by the `active` class) or the load-more
branch. -/
def interceptClick (g : GState) (c : Click) : GState :=
  if !g.isInitialized then
    match c with
    | .onFilter i =>
      match g.st.filterBtns[i]? with
      | none => g
      | some b => { g with pendingFilter := some (filterValueOf b) }
    | .onLoadMore => { g with pendingLoadMore := true }
  else
    match c with
    | .onFilter i => { g with st := clickFilter g.st i }
    | .onLoadMore => { g with st := clickLoadMore g.st }

/-- The pending-filter value left behind by a sequence of pre-initialization
clicks: the value of the last filter control clicked (at a valid index),
starting from `prev`. -/
def lastPendingFilter (btns : List FilterBtn) : Option String → List Click → Option String
  | prev, [] => prev
  | prev, .onFilter i :: cs =>
    lastPendingFilter btns
      (match btns[i]? with
       | some b => some (filterValueOf b)
       | none => prev) cs
  | prev, .onLoadMore :: cs => lastPendingFilter btns prev cs

end Portfolio

namespace Portfolio.JQ

/-!
The jQuery variant (`PortfolioLoadMore`). Items stay in the DOM and are
shown/hidden in place; visibility is tracked through the `data-visible`
attribute. The load-more handler is bound with namespace `click.loadMore`
and unbound again by `updateButtonState` when it decides no items remain.
-/

/-- A portfolio item as the jQuery variant sees it: its raw `data-category`
attribute and whether `data-visible` is currently `"true"`. -/
structure JItem where
  dataCategory : Option String
  dataVisible : Bool
deriving DecidableEq, Repr

/-- The `PortfolioLoadMore` instance state plus the DOM it controls. -/
structure JState where
  items : List JItem
  visibleCount : Nat
  filterValue : String
  maxItems : Nat
  btnDisabled : Bool
  textMainVisible : Bool
  textNoVisible : Bool
  loadMoreBound : Bool
deriving DecidableEq, Repr

/-- `matchesFilter`: `"all"` or empty means everything; otherwise the raw
`data-category` attribute (defaulting to `''`) is compared lower-cased
against the lower-cased filter value. -/
def matchesFilter (fv : String) (it : JItem) : Bool :=
  if fv == "all" || fv == "" then true
  else jsToLower (it.dataCategory.getD "") == jsToLower fv

/-- The traversal of `showItems`: walk the items in order, showing each item
that matches the filter and is not yet visible while the budget lasts;
returns the updated items and the number shown. -/
def showItemsAux (fv : String) : List JItem → Nat → List JItem × Nat
  | [], _ => ([], 0)
  | it :: rest, remaining =>
    if matchesFilter fv it && !it.dataVisible && 0 < remaining then
      let (rest', n) := showItemsAux fv rest (remaining - 1)
      ({ it with dataVisible := true } :: rest', n + 1)
    else
      let (rest', n) := showItemsAux fv rest remaining
      (it :: rest', n)

/-- `updateButtonState` of the jQuery variant. The source iterates with
`this.$allItems.each(function() { var $item = $(this); ... }.bind(this))`:
because the callback is bound, `this` inside it is the `PortfolioLoadMore`
instance rather than the DOM element, so `$item` wraps the controller
object and both `$item.attr('data-category')` and
`$item.attr('data-visible')` are `undefined` on every iteration (jQuery
falls back to a property read on the non-element). The item condition
`undefined === this.filterValue || this.filterValue === 'all'` therefore
counts every item when the filter is `all` and none otherwise, and the
visibility test `undefined === 'true'` never succeeds, so
`visibleMatching` stays 0. The control is disabled — labels swapped and the
load-more handler unbound — when `visibleMatching >= matchingItems` or
`visibleCount` has reached `maxItems`. -/
def updateButtonState (s : JState) : JState :=
  let matchingItems := (s.items.filter (fun _ => s.filterValue == "all")).length
  let visibleMatching := 0
  if matchingItems ≤ visibleMatching || s.maxItems ≤ s.visibleCount then
    { s with btnDisabled := true, textMainVisible := false, textNoVisible := true,
             loadMoreBound := false }
  else
    { s with btnDisabled := false, textMainVisible := true, textNoVisible := false }

/-- `showItems(count)`: show up to `count` further matching items, add the
number shown to `visibleCount`, and update the control state. -/
def showItems (s : JState) (count : Nat) : JState :=
  let p := showItemsAux s.filterValue s.items count
  updateButtonState { s with items := p.1, visibleCount := s.visibleCount + p.2 }

/-- `resetVisibility`: reset `visibleCount`, hide every item, then show the
first `CONFIG.initialLoad = 8` matching items. -/
def resetVisibility (s : JState) : JState :=
  showItems
    { s with
      visibleCount := 0
      items := s.items.map (fun it => { it with dataVisible := false }) } 8

/-- `setFilter`: store the filter value (falsy means `"all"`) and reset the
visible window. -/
def setFilter (s : JState) (fv : String) : JState :=
  resetVisibility { s with filterValue := if fv == "" then "all" else fv }

/-- `PortfolioLoadMore.prototype.init`: read `data-max` (defaulting to the
item count), reset visibility, bind the load-more handler, and update the
control state. -/
def initJ (items : List JItem) (dataMax : Option Nat) : JState :=
  let s : JState :=
    { items := items
      visibleCount := 0
      filterValue := "all"
      maxItems := dataMax.getD items.length
      btnDisabled := false
      textMainVisible := true
      textNoVisible := false
      loadMoreBound := false }
  let s := resetVisibility s
  let s := { s with loadMoreBound := true }
  updateButtonState s

/-- A click on the load-more control: handled only while the
`click.loadMore` handler is still bound; shows `CONFIG.loadPerClick = 8`
more items. -/
def clickLoadMore (s : JState) : JState :=
  if s.loadMoreBound then showItems s 8 else s

/-- The delegated filter click of `initPortfolioFilter`: the delegate
selector is `.filter-nav__item:not(.active)`, so a click on the active
control is never handled; otherwise the active classes are updated and the
control's `data-filter` value is passed to `setFilter`. -/
structure JPage where
  st : JState
  filterBtns : List FilterBtn
deriving DecidableEq, Repr

/-- See `JPage`: the delegated click handler of the jQuery variant. -/
def clickFilterJ (p : JPage) (i : Nat) : JPage :=
  match p.filterBtns[i]? with
  | none => p
  | some b =>
    if b.active then p
    else
      { st := setFilter p.st (filterValueOf b)
        filterBtns := setActive p.filterBtns i }

end Portfolio.JQ

namespace Portfolio

/-! ## Helper lemmas -/

theorem take_min_length {α : Type} (l : List α) (n : Nat) :
    l.take (min n l.length) = l.take n := by
  rcases Nat.le_total n l.length with h | h
  · rw [Nat.min_eq_left h]
  · rw [Nat.min_eq_right h, List.take_of_length_le h, List.take_of_length_le (le_refl _)]

@[simp] theorem updateButtonState_masterItems (s : PState) :
    (updateButtonState s).masterItems = s.masterItems := by
  by_cases h : s.renderedCount < s.filteredItems.length <;> simp [updateButtonState, h]

@[simp] theorem updateButtonState_filteredItems (s : PState) :
    (updateButtonState s).filteredItems = s.filteredItems := by
  by_cases h : s.renderedCount < s.filteredItems.length <;> simp [updateButtonState, h]

@[simp] theorem updateButtonState_renderedCount (s : PState) :
    (updateButtonState s).renderedCount = s.renderedCount := by
  by_cases h : s.renderedCount < s.filteredItems.length <;> simp [updateButtonState, h]

@[simp] theorem updateButtonState_listDom (s : PState) :
    (updateButtonState s).listDom = s.listDom := by
  by_cases h : s.renderedCount < s.filteredItems.length <;> simp [updateButtonState, h]

@[simp] theorem updateButtonState_filterBtns (s : PState) :
    (updateButtonState s).filterBtns = s.filterBtns := by
  by_cases h : s.renderedCount < s.filteredItems.length <;> simp [updateButtonState, h]

@[simp] theorem updateButtonState_previews (s : PState) :
    (updateButtonState s).previews = s.previews := by
  by_cases h : s.renderedCount < s.filteredItems.length <;> simp [updateButtonState, h]

@[simp] theorem syncHoverImages_masterItems (s : PState) :
    (syncHoverImages s).masterItems = s.masterItems := rfl

@[simp] theorem syncHoverImages_filteredItems (s : PState) :
    (syncHoverImages s).filteredItems = s.filteredItems := rfl

@[simp] theorem syncHoverImages_renderedCount (s : PState) :
    (syncHoverImages s).renderedCount = s.renderedCount := rfl

@[simp] theorem syncHoverImages_listDom (s : PState) :
    (syncHoverImages s).listDom = s.listDom := rfl

@[simp] theorem syncHoverImages_filterBtns (s : PState) :
    (syncHoverImages s).filterBtns = s.filterBtns := rfl

@[simp] theorem syncHoverImages_btnDisabled (s : PState) :
    (syncHoverImages s).btnDisabled = s.btnDisabled := rfl

@[simp] theorem syncHoverImages_textMainVisible (s : PState) :
    (syncHoverImages s).textMainVisible = s.textMainVisible := rfl

@[simp] theorem syncHoverImages_textNoVisible (s : PState) :
    (syncHoverImages s).textNoVisible = s.textNoVisible := rfl

@[simp] theorem syncHoverImages_previews (s : PState) :
    (syncHoverImages s).previews
      = s.previews.map (fun p => { p with visible := previewVisibleSpec s.listDom p }) := rfl

@[simp] theorem renderBatch_masterItems (s : PState) :
    (renderBatch s).masterItems = s.masterItems := by
  simp [renderBatch]

@[simp] theorem renderBatch_filteredItems (s : PState) :
    (renderBatch s).filteredItems = s.filteredItems := by
  simp [renderBatch]

@[simp] theorem renderBatch_filterBtns (s : PState) :
    (renderBatch s).filterBtns = s.filterBtns := by
  simp [renderBatch]

@[simp] theorem renderBatch_renderedCount (s : PState) :
    (renderBatch s).renderedCount
      = min (s.renderedCount + ITEMS_PER_BATCH) s.filteredItems.length := by
  simp [renderBatch]

@[simp] theorem renderBatch_listDom (s : PState) :
    (renderBatch s).listDom
      = s.listDom
        ++ ((s.filteredItems.drop s.renderedCount).take
              (min (s.renderedCount + ITEMS_PER_BATCH) s.filteredItems.length
                - s.renderedCount)).map (fun it => it.element) := by
  simp [renderBatch]

@[simp] theorem applyFilter_masterItems (s : PState) (F : String) :
    (applyFilter s F).masterItems = s.masterItems := by
  simp [applyFilter]

@[simp] theorem applyFilter_filterBtns (s : PState) (F : String) :
    (applyFilter s F).filterBtns = s.filterBtns := by
  simp [applyFilter]

@[simp] theorem applyFilter_filteredItems (s : PState) (F : String) :
    (applyFilter s F).filteredItems = computeFiltered s.masterItems (jsToLower F) := by
  simp [applyFilter]

@[simp] theorem applyFilter_renderedCount (s : PState) (F : String) :
    (applyFilter s F).renderedCount
      = min ITEMS_PER_BATCH (computeFiltered s.masterItems (jsToLower F)).length := by
  simp [applyFilter]

@[simp] theorem applyFilter_listDom (s : PState) (F : String) :
    (applyFilter s F).listDom
      = ((computeFiltered s.masterItems (jsToLower F)).take ITEMS_PER_BATCH).map
          (fun it => it.element) := by
  have h := take_min_length (computeFiltered s.masterItems (jsToLower F)) ITEMS_PER_BATCH
  simp [applyFilter, h]

@[simp] theorem applyFilterV_masterItems (s : PState) (F : String) :
    (applyFilterV s F).masterItems = s.masterItems := by
  simp [applyFilterV]

@[simp] theorem applyFilterV_filterBtns (s : PState) (F : String) :
    (applyFilterV s F).filterBtns = s.filterBtns := by
  simp [applyFilterV]

@[simp] theorem applyFilterV_filteredItems (s : PState) (F : String) :
    (applyFilterV s F).filteredItems = computeFilteredV s.masterItems (jsToLower F) := by
  simp [applyFilterV]

@[simp] theorem applyFilterV_renderedCount (s : PState) (F : String) :
    (applyFilterV s F).renderedCount
      = min ITEMS_PER_BATCH (computeFilteredV s.masterItems (jsToLower F)).length := by
  simp [applyFilterV]

@[simp] theorem applyFilterV_listDom (s : PState) (F : String) :
    (applyFilterV s F).listDom
      = ((computeFilteredV s.masterItems (jsToLower F)).take ITEMS_PER_BATCH).map
          (fun it => it.element) := by
  have h := take_min_length (computeFilteredV s.masterItems (jsToLower F)) ITEMS_PER_BATCH
  simp [applyFilterV, h]

/-! ## The load-more control contract -/

/-- The load-more control is in its enabled presentation (no
`btn--disabled` class, `.text--main` shown, `.text--no-items` hidden)
exactly when more filtered items remain. -/
def buttonConsistent (s : PState) : Prop :=
  (s.btnDisabled = false ↔ s.renderedCount < s.filteredItems.length)
  ∧ s.textMainVisible = !s.btnDisabled
  ∧ s.textNoVisible = s.btnDisabled

theorem buttonConsistent_updateButtonState (s : PState) :
    buttonConsistent (updateButtonState s) := by
  by_cases h : s.renderedCount < s.filteredItems.length <;>
    simp [buttonConsistent, updateButtonState, h]

theorem buttonConsistent_syncHoverImages (s : PState) :
    buttonConsistent (syncHoverImages s) ↔ buttonConsistent s := by
  simp [buttonConsistent]

theorem buttonConsistent_renderBatch (s : PState) :
    buttonConsistent (renderBatch s) := by
  unfold renderBatch
  exact (buttonConsistent_syncHoverImages _).mpr (buttonConsistent_updateButtonState _)

theorem buttonConsistent_applyFilter (s : PState) (F : String) :
    buttonConsistent (applyFilter s F) := by
  unfold applyFilter
  exact buttonConsistent_renderBatch _

theorem buttonConsistent_applyFilterV (s : PState) (F : String) :
    buttonConsistent (applyFilterV s F) := by
  unfold applyFilterV
  exact buttonConsistent_renderBatch _

theorem buttonConsistent_clickLoadMore (s : PState)
    (h : buttonConsistent s) : buttonConsistent (clickLoadMore s) := by
  unfold clickLoadMore
  split
  · exact buttonConsistent_updateButtonState _
  · exact h

theorem buttonConsistent_clickFilter (s : PState) (i : Nat)
    (h : buttonConsistent s) : buttonConsistent (clickFilter s i) := by
  unfold clickFilter
  rcases hb : s.filterBtns[i]? with _ | b
  · exact h
  · dsimp only
    split
    · exact h
    · exact buttonConsistent_applyFilter _ _

theorem buttonConsistent_step (s : PState) (op : Op)
    (h : buttonConsistent s) : buttonConsistent (step s op) := by
  cases op with
  | filter i => exact buttonConsistent_clickFilter s i h
  | loadMore => exact buttonConsistent_clickLoadMore s h

theorem buttonConsistent_run (s : PState) (ops : List Op)
    (h : buttonConsistent s) : buttonConsistent (run s ops) := by
  induction ops generalizing s with
  | nil => exact h
  | cons op ops ih => exact ih (step s op) (buttonConsistent_step s op h)

/-! ## The cursor invariant -/

/-- `renderedCount` never exceeds the length of the filtered sequence. -/
def cursorInv (s : PState) : Prop :=
  s.renderedCount ≤ s.filteredItems.length

theorem cursorInv_renderBatch (s : PState) : cursorInv (renderBatch s) := by
  simp [cursorInv]

theorem cursorInv_applyFilter (s : PState) (F : String) :
    cursorInv (applyFilter s F) := by
  unfold applyFilter
  exact cursorInv_renderBatch _

theorem cursorInv_applyFilterV (s : PState) (F : String) :
    cursorInv (applyFilterV s F) := by
  unfold applyFilterV
  exact cursorInv_renderBatch _

theorem cursorInv_clickLoadMore (s : PState)
    (h : cursorInv s) : cursorInv (clickLoadMore s) := by
  unfold clickLoadMore
  split
  · simp [cursorInv]
  · exact h

theorem cursorInv_clickFilter (s : PState) (i : Nat)
    (h : cursorInv s) : cursorInv (clickFilter s i) := by
  unfold clickFilter
  rcases hb : s.filterBtns[i]? with _ | b
  · exact h
  · dsimp only
    split
    · exact h
    · exact cursorInv_applyFilter _ _

theorem cursorInv_step (s : PState) (op : Op)
    (h : cursorInv s) : cursorInv (step s op) := by
  cases op with
  | filter i => exact cursorInv_clickFilter s i h
  | loadMore => exact cursorInv_clickLoadMore s h

theorem cursorInv_run (s : PState) (ops : List Op)
    (h : cursorInv s) : cursorInv (run s ops) := by
  induction ops generalizing s with
  | nil => exact h
  | cons op ops ih => exact ih (step s op) (cursorInv_step s op h)

instance (s : PState) : Decidable (buttonConsistent s) := by
  unfold buttonConsistent
  infer_instance

instance (s : PState) : Decidable (cursorInv s) := by
  unfold cursorInv
  infer_instance

/-! ## Unfolding `init` -/

theorem init_st (g : GState) (h1 : g.isInitialized = false)
    (h2 : g.hasContainer = true) (h3 : g.hasList = true) :
    (init g).st
      = (if g.pendingLoadMore then
           renderBatch
             (match g.pendingFilter with
              | some pf => applyFilter (applyFilter (freshCapture g.st) "all") pf
              | none => applyFilter (freshCapture g.st) "all")
         else
           (match g.pendingFilter with
            | some pf => applyFilter (applyFilter (freshCapture g.st) "all") pf
            | none => applyFilter (freshCapture g.st) "all")) := by
  simp [init, h1, h2, h3]

theorem init_flags (g : GState) (h1 : g.isInitialized = false)
    (h2 : g.hasContainer = true) (h3 : g.hasList = true) :
    (init g).isInitialized = true
    ∧ (init g).pendingFilter = none
    ∧ (init g).pendingLoadMore = false
    ∧ (init g).hasContainer = g.hasContainer
    ∧ (init g).hasList = g.hasList := by
  simp [init, h1, h2, h3]

/-! ## Example fixtures for the witnesses -/

/-- Three page items: one categorized `Design` (upper case in the markup),
one `branding`, one without a category attribute. -/
def exDoms : List DomItem :=
  [{ id := "i1", dataCategory := some "Design" },
   { id := "i2", dataCategory := some "branding" },
   { id := "i3", dataCategory := none }]

/-- A small initialized interceptor-variant state over `exDoms`. -/
def exPState : PState :=
  { masterItems := exDoms.map captureItem
    filteredItems := exDoms.map captureItem
    renderedCount := 0
    listDom := []
    btnDisabled := false
    textMainVisible := true
    textNoVisible := false
    filterBtns := [{ dataFilter := some "all", active := true },
                   { dataFilter := some "design", active := false }]
    previews := [{ dataId := some "i1", visible := false },
                 { dataId := some "i9", visible := true },
                 { dataId := none, visible := true }] }

/-- Nine page items all categorized `design`. -/
def exDoms9 : List DomItem :=
  (List.range 9).map (fun n => { id := "d" ++ toString n, dataCategory := some "design" })

/-- A state over `exDoms9`, before any render. -/
def exBase9 : PState :=
  { masterItems := exDoms9.map captureItem
    filteredItems := []
    renderedCount := 0
    listDom := []
    btnDisabled := false
    textMainVisible := true
    textNoVisible := false
    filterBtns := [{ dataFilter := some "all", active := true },
                   { dataFilter := some "design", active := false }]
    previews := [{ dataId := some "d0", visible := false }] }

/-- `exBase9` after `applyFilter('all')`: 8 of 9 items rendered. -/
def exAll9 : PState := applyFilter exBase9 "all"

/-! ## Claim C1 -/

/-- C1: after `selectFilter(F)` the filtered sequence is `MasterList`
restricted by the lower-cased filter value, the rendered list is exactly its
first `min(batchSize, length)` items (in master order, old items cleared),
the cursor was reset to 0 before rendering (so it now equals the size of the
first batch), and — for a proper category filter — every displayed element
comes from a master item of exactly that category, so nothing of a
previously selected category remains. -/
theorem c1_selectFilter_renders_filtered_prefix (s : PState) (F : String) :
    (applyFilter s F).filteredItems = computeFiltered s.masterItems (jsToLower F)
    ∧ (applyFilter s F).listDom
        = ((computeFiltered s.masterItems (jsToLower F)).take ITEMS_PER_BATCH).map
            (fun it => it.element)
    ∧ (applyFilter s F).renderedCount
        = min ITEMS_PER_BATCH (computeFiltered s.masterItems (jsToLower F)).length
    ∧ (jsToLower F ≠ "all" → jsToLower F ≠ "" →
        computeFiltered s.masterItems (jsToLower F)
          = s.masterItems.filter (fun it => it.category == jsToLower F)
        ∧ ∀ d ∈ (applyFilter s F).listDom,
            ∃ it ∈ s.masterItems, it.category = jsToLower F ∧ it.element = d) := by
  refine ⟨applyFilter_filteredItems s F, applyFilter_listDom s F,
    applyFilter_renderedCount s F, fun h1 h2 => ?_⟩
  have hseq : computeFiltered s.masterItems (jsToLower F)
      = s.masterItems.filter (fun it => it.category == jsToLower F) := by
    simp [computeFiltered, h1, h2]
  refine ⟨hseq, fun d hd => ?_⟩
  rw [applyFilter_listDom s F, hseq] at hd
  obtain ⟨it, hit, rfl⟩ := List.mem_map.mp hd
  have hmem := List.mem_of_mem_take hit
  have hfil := List.mem_filter.mp hmem
  exact ⟨it, hfil.1, by simpa using hfil.2, rfl⟩

/-- C1 witness: on `exPState`, selecting `"Design"` renders exactly the one
master item of (lower-cased) category `design` and it originates from the
master list. -/
theorem c1_witness :
    (applyFilter exPState "Design").listDom
        = [{ id := "i1", dataCategory := some "Design" }]
    ∧ computeFiltered exPState.masterItems (jsToLower "Design")
        = exPState.masterItems.filter (fun it => it.category == jsToLower "Design") := by
  have h := c1_selectFilter_renders_filtered_prefix exPState "Design"
  refine ⟨?_, (h.2.2.2 (by decide) (by decide)).1⟩
  rw [h.2.1]
  decide

/-! ## Claim C2 -/

/-- C2: `loadMore()` is the identity (hence idempotent) once
`renderedCount` has reached the filtered length; otherwise it appends
exactly the filtered items from position `renderedCount` up to
`min(renderedCount + 8, length)`, advances `renderedCount` by the number
actually appended (`min(8, length - renderedCount)`, which may be less than
the batch size at the tail), and leaves the load-more control consistent. -/
theorem c2_loadMore_appends_next_batch (s : PState) :
    (s.filteredItems.length ≤ s.renderedCount → clickLoadMore s = s)
    ∧ (s.renderedCount < s.filteredItems.length →
        (clickLoadMore s).listDom
          = s.listDom
            ++ ((s.filteredItems.drop s.renderedCount).take ITEMS_PER_BATCH).map
                (fun it => it.element)
        ∧ (clickLoadMore s).renderedCount
            = s.renderedCount
              + ((s.filteredItems.drop s.renderedCount).take ITEMS_PER_BATCH).length
        ∧ ((s.filteredItems.drop s.renderedCount).take ITEMS_PER_BATCH).length
            = min ITEMS_PER_BATCH (s.filteredItems.length - s.renderedCount)
        ∧ (clickLoadMore s).filteredItems = s.filteredItems
        ∧ buttonConsistent (clickLoadMore s)) := by
  constructor
  · intro h
    simp [clickLoadMore, Nat.not_lt.mpr h]
  · intro h
    have htake : min (s.renderedCount + ITEMS_PER_BATCH) s.filteredItems.length
          - s.renderedCount
        = min ITEMS_PER_BATCH ((s.filteredItems.drop s.renderedCount).length) := by
      rw [List.length_drop]
      simp only [ITEMS_PER_BATCH]
      omega
    have hslice : (s.filteredItems.drop s.renderedCount).take
          (min (s.renderedCount + ITEMS_PER_BATCH) s.filteredItems.length
            - s.renderedCount)
        = (s.filteredItems.drop s.renderedCount).take ITEMS_PER_BATCH := by
      rw [htake, take_min_length]
    have hlen : ((s.filteredItems.drop s.renderedCount).take ITEMS_PER_BATCH).length
        = min ITEMS_PER_BATCH (s.filteredItems.length - s.renderedCount) := by
      simp
    have hcl : clickLoadMore s = updateButtonState (renderBatch s) := by
      simp [clickLoadMore, h]
    refine ⟨?_, ?_, hlen, ?_, ?_⟩
    · rw [hcl]
      simp only [updateButtonState_listDom, renderBatch_listDom]
      rw [hslice]
    · rw [hcl]
      simp only [updateButtonState_renderedCount, renderBatch_renderedCount, hlen]
      simp only [ITEMS_PER_BATCH]
      omega
    · rw [hcl]
      simp
    · rw [hcl]
      exact buttonConsistent_updateButtonState _

/-- C2 witness: on the 8-of-9 state `exAll9`, `loadMore()` renders the ninth
item, and once exhausted a further `loadMore()` is the identity. -/
theorem c2_witness :
    clickLoadMore (clickLoadMore exAll9) = clickLoadMore exAll9
    ∧ (clickLoadMore exAll9).renderedCount = 9 := by
  have h1 := c2_loadMore_appends_next_batch (clickLoadMore exAll9)
  have h2 := c2_loadMore_appends_next_batch exAll9
  refine ⟨h1.1 (by decide), ?_⟩
  rw [(h2.2 (by decide)).2.1]
  decide

/-! ## Claim C3 -/

/-- Nine jQuery-variant page items whose markup category is `Design`
(upper-case D), none visible yet. -/
def exJItems9 : List JQ.JItem :=
  (List.range 9).map (fun _ => { dataCategory := some "Design", dataVisible := false })

/-- Nine jQuery-variant page items whose markup category is `design`
(already lower case, so it matches a `design` filter even by exact
comparison), none visible yet. -/
def exJItems9L : List JQ.JItem :=
  (List.range 9).map (fun _ => { dataCategory := some "design", dataVisible := false })

/-- The jQuery-variant state reached by initializing over `exJItems9L` (no
`data-max` attribute) and then selecting the `design` filter. -/
def exJL : JQ.JState := JQ.setFilter (JQ.initJ exJItems9L none) "design"

/-- The jQuery-variant state reached by initializing over `exJItems9L` with
`data-max` 20 (filter stays `all`) and then one load-more click, which
shows the ninth and last item. -/
def exJAll : JQ.JState := JQ.clickLoadMore (JQ.initJ exJItems9L (some 20))

/-- C3 counterexample: in the jQuery variant (`PortfolioLoadMore`) the
claimed equivalence fails in both directions, even with exact-case
categories. On `exJL`, eight of the nine items matching the `design`
filter are shown — renderedCount (8) is less than the length of the
filtered sequence (9) — yet the control is disabled with the no-more label:
the bound `each` callback of `updateButtonState` reads attributes off the
controller instance, so `matchingItems` is 0 for any non-`all` filter. On
`exJAll`, all nine items are shown under the `all` filter — renderedCount
(9) equals the filtered length — yet the control stays enabled, because
`visibleMatching` is always 0 and only the `data-max` cap (20) is ever
reached. -/
theorem c3_counterexample :
    ((exJL.items.filter (fun it => JQ.matchesFilter exJL.filterValue it && it.dataVisible)).length = 8
     ∧ (exJL.items.filter (fun it => JQ.matchesFilter exJL.filterValue it)).length = 9
     ∧ exJL.btnDisabled = true
     ∧ exJL.textNoVisible = true
     ∧ exJL.textMainVisible = false)
    ∧ ((exJAll.items.filter (fun it => JQ.matchesFilter exJAll.filterValue it && it.dataVisible)).length = 9
     ∧ (exJAll.items.filter (fun it => JQ.matchesFilter exJAll.filterValue it)).length = 9
     ∧ exJAll.btnDisabled = false
     ∧ exJAll.textMainVisible = true) := by decide

/-- C3 (amended): in the interceptor and vanilla variants the claimed
equivalence does hold in every reachable state — after any `selectFilter`,
after initialization, and along any sequence of filter and load-more
actions, the control is enabled (disabled class absent, primary label
visible) iff `renderedCount < length(FilteredSequence)`, and when disabled
the no-more label replaces the primary label. In the jQuery variant it
fails (see the counterexample). -/
theorem c3_button_state_amended :
    (∀ s F, buttonConsistent (applyFilter s F))
    ∧ (∀ s F, buttonConsistent (applyFilterV s F))
    ∧ (∀ g, g.isInitialized = false → g.hasContainer = true → g.hasList = true →
        buttonConsistent (init g).st)
    ∧ (∀ s ops, buttonConsistent s → buttonConsistent (run s ops)) := by
  refine ⟨buttonConsistent_applyFilter, buttonConsistent_applyFilterV,
    fun g h1 h2 h3 => ?_, buttonConsistent_run⟩
  rw [init_st g h1 h2 h3]
  rcases g.pendingFilter with _ | pf
  · by_cases hl : g.pendingLoadMore
    · simp only [hl, if_true]
      exact buttonConsistent_renderBatch _
    · simp only [hl, if_false]
      exact buttonConsistent_applyFilter _ _
  · by_cases hl : g.pendingLoadMore
    · simp only [hl, if_true]
      exact buttonConsistent_renderBatch _
    · simp only [hl, if_false]
      exact buttonConsistent_applyFilter _ _

/-- A pre-initialization page state over the nine `design` items (the
original items still sit in the list markup), with a pending `design`
filter and a pending load-more click queued. -/
def exG : GState :=
  { hasContainer := true
    hasList := true
    st := { masterItems := []
            filteredItems := []
            renderedCount := 0
            listDom := exDoms9
            btnDisabled := false
            textMainVisible := true
            textNoVisible := false
            filterBtns := [{ dataFilter := some "all", active := true },
                           { dataFilter := some "design", active := false }]
            previews := [{ dataId := some "d0", visible := false }] }
    isInitialized := false
    pendingFilter := some "design"
    pendingLoadMore := true }

/-- C3 amended witness: the equivalence holds concretely after
initialization of `exG` and after a subsequent load-more click. -/
theorem c3_amended_witness :
    buttonConsistent (init exG).st
    ∧ buttonConsistent (run exAll9 [Op.loadMore, Op.loadMore]) :=
  ⟨c3_button_state_amended.2.2.1 exG (by decide) (by decide) (by decide),
   c3_button_state_amended.2.2.2 exAll9 [Op.loadMore, Op.loadMore] (by decide)⟩

/-! ## Claim C4 -/

/-- C4: `renderedCount ≤ length(FilteredSequence)` holds after
initialization and is preserved by every filter selection and load-more
click, hence along every action sequence. -/
theorem c4_cursor_invariant :
    (∀ g, g.isInitialized = false → g.hasContainer = true → g.hasList = true →
        cursorInv (init g).st)
    ∧ (∀ s F, cursorInv (applyFilter s F))
    ∧ (∀ s F, cursorInv (applyFilterV s F))
    ∧ (∀ s i, cursorInv s → cursorInv (clickFilter s i))
    ∧ (∀ s, cursorInv s → cursorInv (clickLoadMore s))
    ∧ (∀ s ops, cursorInv s → cursorInv (run s ops)) := by
  refine ⟨fun g h1 h2 h3 => ?_, cursorInv_applyFilter, cursorInv_applyFilterV,
    cursorInv_clickFilter, cursorInv_clickLoadMore, cursorInv_run⟩
  rw [init_st g h1 h2 h3]
  rcases g.pendingFilter with _ | pf
  · by_cases hl : g.pendingLoadMore
    · simp only [hl, if_true]
      exact cursorInv_renderBatch _
    · simp only [hl, if_false]
      exact cursorInv_applyFilter _ _
  · by_cases hl : g.pendingLoadMore
    · simp only [hl, if_true]
      exact cursorInv_renderBatch _
    · simp only [hl, if_false]
      exact cursorInv_applyFilter _ _

/-- C4 witness: the invariant concretely after initializing `exG` and after
running two further load-more clicks from `exAll9`. -/
theorem c4_witness :
    cursorInv (init exG).st
    ∧ cursorInv (run exAll9 [Op.loadMore, Op.loadMore]) :=
  ⟨c4_cursor_invariant.1 exG (by decide) (by decide) (by decide),
   c4_cursor_invariant.2.2.2.2.2 exAll9 [Op.loadMore, Op.loadMore] (by decide)⟩

/-! ## Claim C5 -/

/-- C5 counterexample: in the vanilla variant the captured category is the
raw attribute `Design`, which is not a lower-cased string — the capture does
not lower-case. -/
theorem c5_counterexample :
    (captureItemV { id := "x", dataCategory := some "Design" }).category = "Design"
    ∧ (captureItemV { id := "x", dataCategory := some "Design" }).category
        ≠ jsToLower (captureItemV { id := "x", dataCategory := some "Design" }).category := by
  decide

/-- C5 (amended): the category defaults to `uncategorized` in both
variants; the interceptor variant lower-cases it at capture while the
vanilla variant stores it as written and lower-cases only at comparison; in
both variants filtering matches categories case-insensitively (the
lower-cased attribute against the lower-cased filter value), and `all` or
the empty string performs no filtering. -/
theorem c5_capture_and_matching_amended :
    (∀ d, (captureItem d).category = jsToLower (d.dataCategory.getD "uncategorized"))
    ∧ (∀ d, (captureItemV d).category = d.dataCategory.getD "uncategorized")
    ∧ (∀ m, computeFiltered m "all" = m ∧ computeFiltered m "" = m
        ∧ computeFilteredV m "all" = m ∧ computeFilteredV m "" = m)
    ∧ (∀ (doms : List DomItem) (F : String),
        jsToLower F ≠ "all" → jsToLower F ≠ "" →
        computeFiltered (doms.map captureItem) (jsToLower F)
          = (doms.filter (fun d =>
              jsToLower (d.dataCategory.getD "uncategorized") == jsToLower F)).map captureItem
        ∧ computeFilteredV (doms.map captureItemV) (jsToLower F)
          = (doms.filter (fun d =>
              jsToLower (d.dataCategory.getD "uncategorized") == jsToLower F)).map captureItemV) := by
  refine ⟨fun d => rfl, fun d => rfl,
    fun m => ⟨by simp [computeFiltered], by simp [computeFiltered],
              by simp [computeFilteredV], by simp [computeFilteredV]⟩,
    fun doms F h1 h2 => ⟨?_, ?_⟩⟩
  · simp [computeFiltered, h1, h2, List.filter_map]
    rfl
  · simp [computeFilteredV, h1, h2, List.filter_map]
    rfl

/-- C5 witness: filtering the captured `exDoms` by `DESIGN` keeps exactly
the items whose lower-cased attribute is `design`, in both variants. -/
theorem c5_witness :
    computeFiltered (exDoms.map captureItem) (jsToLower "DESIGN")
      = (exDoms.filter (fun d =>
          jsToLower (d.dataCategory.getD "uncategorized") == jsToLower "DESIGN")).map captureItem
    ∧ computeFilteredV (exDoms.map captureItemV) (jsToLower "DESIGN")
      = (exDoms.filter (fun d =>
          jsToLower (d.dataCategory.getD "uncategorized") == jsToLower "DESIGN")).map captureItemV :=
  c5_capture_and_matching_amended.2.2.2 exDoms "DESIGN" (by decide) (by decide)

/-! ## Claim C6 -/

/-- How many filter controls carry the active class. -/
def countActive (btns : List FilterBtn) : Nat :=
  (btns.filter (fun b => b.active)).length

instance (btns : List FilterBtn) (n : Nat) : Decidable (countActive btns = n) := by
  unfold countActive
  infer_instance

theorem filter_active_clearAll (bs : List FilterBtn) :
    (bs.map (fun x => { x with active := false })).filter (fun b => b.active) = [] := by
  induction bs with
  | nil => rfl
  | cons b bs ih => simp [List.filter_cons, ih]

theorem countActive_setActive (bs : List FilterBtn) (i : Nat) (h : i < bs.length) :
    countActive (setActive bs i) = 1 := by
  induction bs generalizing i with
  | nil => simp at h
  | cons b bs ih =>
    cases i with
    | zero =>
      simp [setActive, countActive, List.filter_cons, filter_active_clearAll bs]
    | succ n =>
      have hn : n < bs.length := by simpa using h
      have := ih n hn
      simpa [setActive, countActive, List.filter_cons] using this

theorem lt_length_of_getElem? {α : Type} (l : List α) (i : Nat) (b : α)
    (h : l[i]? = some b) : i < l.length := by
  by_contra hc
  rw [List.getElem?_eq_none (Nat.le_of_not_lt hc)] at h
  exact Option.noConfusion h

theorem countActive_clickFilter (s : PState) (i : Nat)
    (h : countActive s.filterBtns = 1) :
    countActive ((clickFilter s i).filterBtns) = 1 := by
  unfold clickFilter
  rcases hb : s.filterBtns[i]? with _ | b
  · exact h
  · dsimp only
    split
    · exact h
    · rw [applyFilter_filterBtns]
      exact countActive_setActive _ _ (lt_length_of_getElem? _ _ _ hb)

theorem countActive_step (s : PState) (op : Op)
    (h : countActive s.filterBtns = 1) :
    countActive ((step s op).filterBtns) = 1 := by
  cases op with
  | filter i => exact countActive_clickFilter s i h
  | loadMore =>
    have hb : (clickLoadMore s).filterBtns = s.filterBtns := by
      unfold clickLoadMore
      split <;> simp
    rw [step, hb]
    exact h

theorem countActive_run (s : PState) (ops : List Op)
    (h : countActive s.filterBtns = 1) :
    countActive ((run s ops).filterBtns) = 1 := by
  induction ops generalizing s with
  | nil => exact h
  | cons op ops ih => exact ih (step s op) (countActive_step s op h)

/-- C6: each effective filter selection removes the active class from every
control and marks the selected one only, so exactly one control is active
afterwards (`setActive` at any valid index, as both click handlers do);
a click on a non-active control therefore leaves exactly one active in both
the interceptor and the vanilla variant; load-more clicks do not touch the
controls; and the exactly-one-active property is preserved along every
action sequence. -/
theorem c6_exactly_one_active :
    (∀ btns i, i < btns.length → countActive (setActive btns i) = 1)
    ∧ (∀ s i b, s.filterBtns[i]? = some b → b.active = false →
        countActive ((clickFilter s i).filterBtns) = 1
        ∧ countActive ((clickFilterV s i).filterBtns) = 1)
    ∧ (∀ s, (clickLoadMore s).filterBtns = s.filterBtns)
    ∧ (∀ s ops, countActive s.filterBtns = 1 →
        countActive ((run s ops).filterBtns) = 1) := by
  refine ⟨countActive_setActive, fun s i b hb hact => ⟨?_, ?_⟩, fun s => ?_, countActive_run⟩
  · rw [clickFilter, hb]
    dsimp only
    rw [if_neg (by simp [hact])]
    rw [applyFilter_filterBtns]
    exact countActive_setActive _ _ (lt_length_of_getElem? _ _ _ hb)
  · rw [clickFilterV, hb]
    dsimp only
    rw [applyFilterV_filterBtns]
    exact countActive_setActive _ _ (lt_length_of_getElem? _ _ _ hb)
  · unfold clickLoadMore
    split <;> simp

/-- C6 witness: clicking the non-active `design` control of `exPState`
leaves exactly one active control (both variants), concretely. -/
theorem c6_witness :
    countActive ((clickFilter exPState 1).filterBtns) = 1
    ∧ countActive ((clickFilterV exPState 1).filterBtns) = 1 :=
  c6_exactly_one_active.2.1 exPState 1
    { dataFilter := some "design", active := false } (by decide) (by decide)

/-! ## Claim C7 -/

/-- Every preview image is displayed exactly when its `data-id` matches a
currently rendered item. -/
def previewsSynced (s : PState) : Prop :=
  ∀ p ∈ s.previews, p.visible = previewVisibleSpec s.listDom p

instance (s : PState) : Decidable (previewsSynced s) := by
  unfold previewsSynced
  infer_instance

theorem previewsSynced_syncHoverImages (s : PState) :
    previewsSynced (syncHoverImages s) := by
  intro p hp
  rw [syncHoverImages_previews] at hp
  obtain ⟨q, hq, rfl⟩ := List.mem_map.mp hp
  rfl

theorem previewsSynced_updateButtonState (s : PState)
    (h : previewsSynced s) : previewsSynced (updateButtonState s) := by
  intro p hp
  rw [updateButtonState_previews] at hp
  rw [updateButtonState_listDom]
  exact h p hp

theorem previewsSynced_renderBatch (s : PState) :
    previewsSynced (renderBatch s) := by
  unfold renderBatch
  exact previewsSynced_syncHoverImages _

theorem previewsSynced_applyFilter (s : PState) (F : String) :
    previewsSynced (applyFilter s F) := by
  unfold applyFilter
  exact previewsSynced_renderBatch _

theorem previewsSynced_applyFilterV (s : PState) (F : String) :
    previewsSynced (applyFilterV s F) := by
  unfold applyFilterV
  exact previewsSynced_renderBatch _

/-- C7: after every render — a filter selection (either variant), a
load-more click that actually renders, or initialization — each preview
image in the auxiliary panel is visible iff its identifier matches a
rendered item's id, and every other preview image is hidden. -/
theorem c7_preview_sync :
    (∀ s F, previewsSynced (applyFilter s F))
    ∧ (∀ s F, previewsSynced (applyFilterV s F))
    ∧ (∀ s, s.renderedCount < s.filteredItems.length →
        previewsSynced (clickLoadMore s))
    ∧ (∀ g, g.isInitialized = false → g.hasContainer = true → g.hasList = true →
        previewsSynced (init g).st) := by
  refine ⟨previewsSynced_applyFilter, previewsSynced_applyFilterV,
    fun s h => ?_, fun g h1 h2 h3 => ?_⟩
  · rw [clickLoadMore, if_pos h]
    exact previewsSynced_updateButtonState _ (previewsSynced_renderBatch _)
  · rw [init_st g h1 h2 h3]
    rcases g.pendingFilter with _ | pf
    · by_cases hl : g.pendingLoadMore
      · simp only [hl, if_true]
        exact previewsSynced_renderBatch _
      · simp only [hl, if_false]
        exact previewsSynced_applyFilter _ _
    · by_cases hl : g.pendingLoadMore
      · simp only [hl, if_true]
        exact previewsSynced_renderBatch _
      · simp only [hl, if_false]
        exact previewsSynced_applyFilter _ _

/-- C7 witness: the panel is synchronized concretely after a filter
selection on `exPState`, after a rendering load-more on `exAll9`, and after
initialization of `exG`. -/
theorem c7_witness :
    previewsSynced (applyFilter exPState "design")
    ∧ previewsSynced (clickLoadMore exAll9)
    ∧ previewsSynced (init exG).st :=
  ⟨c7_preview_sync.1 exPState "design",
   c7_preview_sync.2.2.1 exAll9 (by decide),
   c7_preview_sync.2.2.2 exG (by decide) (by decide) (by decide)⟩

/-! ## Claim C8 -/

/-- C8: `init` on an already-initialized controller is a no-op (the master
list is captured at most once); when the container or list markup is absent
it returns with the whole state unchanged, logging only (the embedded
function is total, so no exception is possible); and `init` is idempotent
on every state. -/
theorem c8_init_idempotent_and_safe :
    (∀ g : GState, g.isInitialized = true → init g = g)
    ∧ (∀ g : GState, g.hasContainer = false → init g = g)
    ∧ (∀ g : GState, g.hasList = false → init g = g)
    ∧ (∀ g : GState, init (init g) = init g) := by
  have h1 : ∀ g : GState, g.isInitialized = true → init g = g := by
    intro g h
    simp [init, h]
  have h2 : ∀ g : GState, g.hasContainer = false → init g = g := by
    intro g h
    by_cases hi : g.isInitialized
    · exact h1 g hi
    · simp [init, hi, h]
  have h3 : ∀ g : GState, g.hasList = false → init g = g := by
    intro g h
    by_cases hi : g.isInitialized
    · exact h1 g hi
    · by_cases hc : g.hasContainer
      · simp [init, hi, hc, h]
      · exact h2 g (by simpa using hc)
  refine ⟨h1, h2, h3, fun g => ?_⟩
  by_cases hi : g.isInitialized
  · rw [h1 g hi]
    exact h1 g hi
  · by_cases hc : g.hasContainer
    · by_cases hl : g.hasList
      · exact h1 (init g)
          (init_flags g (by simpa using hi) hc hl).1
      · have hlf : g.hasList = false := by simpa using hl
        rw [h3 g hlf]
        exact h3 g hlf
    · have hcf : g.hasContainer = false := by simpa using hc
      rw [h2 g hcf]
      exact h2 g hcf

/-- C8 witness: concretely, a second `init` after a successful one is a
no-op, and `init` leaves a state without the expected markup unchanged. -/
theorem c8_witness :
    init (init exG) = init exG
    ∧ init { exG with hasContainer := false } = { exG with hasContainer := false }
    ∧ init { exG with hasList := false } = { exG with hasList := false }
    ∧ init { exG with isInitialized := true } = { exG with isInitialized := true } :=
  ⟨c8_init_idempotent_and_safe.2.2.2 exG,
   c8_init_idempotent_and_safe.2.1 _ (by decide),
   c8_init_idempotent_and_safe.2.2.1 _ (by decide),
   c8_init_idempotent_and_safe.1 _ (by decide)⟩

/-! ## Claim C9 -/

/-- `exAll9` (vanilla filtering) after one load-more: all nine items are
rendered and the `all` control at index 0 is still the active one. -/
def exV : PState := clickLoadMore (applyFilterV exBase9 "all")

/-- C9 counterexample: in the vanilla variant (`setupFilters`), clicking the
filter control that already carries the active indicator is *not* a no-op:
on `exV` (nine items all rendered, `all` active) it re-applies the filter,
resetting `renderedCount` from 9 back to the first batch of 8 and
re-rendering the list. -/
theorem c9_counterexample :
    exV.filterBtns[0]? = some { dataFilter := some "all", active := true }
    ∧ clickFilterV exV 0 ≠ exV
    ∧ exV.renderedCount = 9
    ∧ (clickFilterV exV 0).renderedCount = 8
    ∧ exV.listDom.length = 9
    ∧ (clickFilterV exV 0).listDom.length = 8 := by decide

/-- C9 (amended): clicking the active filter control is a complete no-op in
the interceptor variant (the branch is guarded by the active class) and in
the jQuery variant (the delegated selector excludes `.active`); in the
vanilla variant the handler has no such guard and instead re-applies the
filter — re-marking the controls and running `applyFilter`, which resets
`renderedCount` to 0 and re-renders the first batch. -/
theorem c9_active_click_amended :
    (∀ s i b, s.filterBtns[i]? = some b → b.active = true → clickFilter s i = s)
    ∧ (∀ (p : JQ.JPage) i b, p.filterBtns[i]? = some b → b.active = true →
        JQ.clickFilterJ p i = p)
    ∧ (∀ s i b, s.filterBtns[i]? = some b →
        clickFilterV s i
          = applyFilterV { s with filterBtns := setActive s.filterBtns i }
              (filterValueOf b)) := by
  refine ⟨fun s i b hb hact => ?_, fun p i b hb hact => ?_, fun s i b hb => ?_⟩
  · rw [clickFilter, hb]
    simp [hact]
  · rw [JQ.clickFilterJ, hb]
    simp [hact]
  · rw [clickFilterV, hb]

/-- A jQuery-variant page over `exJItems9` whose `all` control is active. -/
def exJPage : JQ.JPage :=
  { st := JQ.initJ exJItems9 none
    filterBtns := [{ dataFilter := some "all", active := true },
                   { dataFilter := some "design", active := false }] }

/-- C9 amended witness: concretely, the active-control click is a no-op in
the interceptor and jQuery variants, and in the vanilla variant it equals a
full re-application of the active control's filter. -/
theorem c9_amended_witness :
    clickFilter exV 0 = exV
    ∧ JQ.clickFilterJ exJPage 0 = exJPage
    ∧ clickFilterV exV 0
        = applyFilterV { exV with filterBtns := setActive exV.filterBtns 0 }
            (filterValueOf { dataFilter := some "all", active := true }) :=
  ⟨c9_active_click_amended.1 exV 0
      { dataFilter := some "all", active := true } (by decide) (by decide),
   c9_active_click_amended.2.1 exJPage 0
      { dataFilter := some "all", active := true } (by decide) (by decide),
   c9_active_click_amended.2.2 exV 0
      { dataFilter := some "all", active := true } (by decide)⟩

/-! ## Claim C10 -/

theorem interceptClick_preInit (g : GState) (h : g.isInitialized = false) (c : Click) :
    interceptClick g c
      = (match c with
         | .onFilter i =>
           { g with pendingFilter :=
               match g.st.filterBtns[i]? with
               | some b => some (filterValueOf b)
               | none => g.pendingFilter }
         | .onLoadMore => { g with pendingLoadMore := true }) := by
  obtain ⟨hc, hl, st, ii, pf, plm⟩ := g
  simp only at h
  subst h
  cases c with
  | onFilter i =>
    simp only [interceptClick]
    rcases hb : st.filterBtns[i]? with _ | b <;> simp [hb]
  | onLoadMore => simp [interceptClick]

theorem preInit_retention (g : GState) (clicks : List Click)
    (h : g.isInitialized = false) :
    (clicks.foldl interceptClick g).st = g.st
    ∧ (clicks.foldl interceptClick g).isInitialized = false
    ∧ (clicks.foldl interceptClick g).hasContainer = g.hasContainer
    ∧ (clicks.foldl interceptClick g).hasList = g.hasList
    ∧ (clicks.foldl interceptClick g).pendingLoadMore
        = (g.pendingLoadMore || clicks.any Click.isLoadMore)
    ∧ (clicks.foldl interceptClick g).pendingFilter
        = lastPendingFilter g.st.filterBtns g.pendingFilter clicks := by
  induction clicks generalizing g with
  | nil => simp [lastPendingFilter, h]
  | cons c cs ih =>
    rw [List.foldl_cons, interceptClick_preInit g h c]
    cases c with
    | onFilter i =>
      have hstep := ih
        { g with pendingFilter :=
            match g.st.filterBtns[i]? with
            | some b => some (filterValueOf b)
            | none => g.pendingFilter } h
      refine ⟨hstep.1, hstep.2.1, hstep.2.2.1, hstep.2.2.2.1, ?_, ?_⟩
      · rw [hstep.2.2.2.2.1]
        simp [Click.isLoadMore]
      · rw [hstep.2.2.2.2.2]
        rfl
    | onLoadMore =>
      have hstep := ih { g with pendingLoadMore := true } h
      refine ⟨hstep.1, hstep.2.1, hstep.2.2.1, hstep.2.2.2.1, ?_, ?_⟩
      · rw [hstep.2.2.2.2.1]
        simp [Click.isLoadMore]
      · rw [hstep.2.2.2.2.2]
        rfl

/-- C10: before initialization the interceptor retains only the most
recently clicked filter value (`lastPendingFilter`) and a single boolean
load-more flag, leaving the controller state untouched no matter how many
clicks arrive (every transition is a total function, so no click throws);
and when initialization runs with a pending filter it replays in a fixed
order — the pending filter is applied first (resetting the cursor, so the
result is a prefix of that filter's sequence), then at most one extra batch
(8 further items) is rendered, then the queue is cleared. -/
theorem c10_pending_queue_and_replay :
    (∀ (g : GState) (clicks : List Click), g.isInitialized = false →
        (clicks.foldl interceptClick g).st = g.st
        ∧ (clicks.foldl interceptClick g).isInitialized = false
        ∧ (clicks.foldl interceptClick g).pendingLoadMore
            = (g.pendingLoadMore || clicks.any Click.isLoadMore)
        ∧ (clicks.foldl interceptClick g).pendingFilter
            = lastPendingFilter g.st.filterBtns g.pendingFilter clicks)
    ∧ (∀ (g : GState) (f : String), g.isInitialized = false →
        g.hasContainer = true → g.hasList = true → g.pendingFilter = some f →
        (init g).st.renderedCount
          = min (if g.pendingLoadMore then 16 else 8)
              (computeFiltered (g.st.listDom.map captureItem) (jsToLower f)).length
        ∧ (init g).st.listDom
          = ((computeFiltered (g.st.listDom.map captureItem) (jsToLower f)).take
              (if g.pendingLoadMore then 16 else 8)).map (fun it => it.element)
        ∧ (init g).pendingFilter = none
        ∧ (init g).pendingLoadMore = false
        ∧ (init g).isInitialized = true) := by
  constructor
  · intro g clicks h
    have hr := preInit_retention g clicks h
    exact ⟨hr.1, hr.2.1, hr.2.2.2.2.1, hr.2.2.2.2.2⟩
  · intro g f h1 h2 h3 hf
    have hflags := init_flags g h1 h2 h3
    have hst := init_st g h1 h2 h3
    rw [hf] at hst
    have hm : (applyFilter (freshCapture g.st) "all").masterItems
        = g.st.listDom.map captureItem := by
      rw [applyFilter_masterItems]
      rfl
    have h2f : (applyFilter (applyFilter (freshCapture g.st) "all") f).filteredItems
        = computeFiltered (g.st.listDom.map captureItem) (jsToLower f) := by
      rw [applyFilter_filteredItems, hm]
    have h2rc : (applyFilter (applyFilter (freshCapture g.st) "all") f).renderedCount
        = min ITEMS_PER_BATCH
            (computeFiltered (g.st.listDom.map captureItem) (jsToLower f)).length := by
      rw [applyFilter_renderedCount, hm]
    have h2ld : (applyFilter (applyFilter (freshCapture g.st) "all") f).listDom
        = ((computeFiltered (g.st.listDom.map captureItem) (jsToLower f)).take
            ITEMS_PER_BATCH).map (fun it => it.element) := by
      rw [applyFilter_listDom, hm]
    refine ⟨?_, ?_, hflags.2.1, hflags.2.2.1, hflags.1⟩
    · by_cases hl : g.pendingLoadMore
      · simp only [hl, if_true] at hst ⊢
        rw [hst, renderBatch_renderedCount, h2f, h2rc]
        simp only [ITEMS_PER_BATCH]
        omega
      · have hlf : g.pendingLoadMore = false := by simpa using hl
        simp only [hlf, Bool.false_eq_true, if_false] at hst ⊢
        rw [hst, h2rc]
        simp [ITEMS_PER_BATCH]
    · by_cases hl : g.pendingLoadMore
      · simp only [hl, if_true] at hst ⊢
        rw [hst, renderBatch_listDom, h2f, h2rc, h2ld]
        rw [← List.map_append]
        congr 1
        have hkey : (computeFiltered (g.st.listDom.map captureItem) (jsToLower f)).take
              (16 : Nat)
            = (computeFiltered (g.st.listDom.map captureItem) (jsToLower f)).take
                ITEMS_PER_BATCH
              ++ ((computeFiltered (g.st.listDom.map captureItem) (jsToLower f)).drop
                    (min ITEMS_PER_BATCH
                      (computeFiltered (g.st.listDom.map captureItem)
                        (jsToLower f)).length)).take
                  (min
                    (min ITEMS_PER_BATCH
                      (computeFiltered (g.st.listDom.map captureItem)
                        (jsToLower f)).length + ITEMS_PER_BATCH)
                    (computeFiltered (g.st.listDom.map captureItem)
                      (jsToLower f)).length
                   - min ITEMS_PER_BATCH
                      (computeFiltered (g.st.listDom.map captureItem)
                        (jsToLower f)).length) := by
          rw [← take_min_length (computeFiltered (g.st.listDom.map captureItem)
                (jsToLower f)) ITEMS_PER_BATCH,
              ← take_min_length (computeFiltered (g.st.listDom.map captureItem)
                (jsToLower f)) 16,
              ← List.take_add]
          congr 1
          simp only [ITEMS_PER_BATCH]
          omega
        rw [hkey]
      · have hlf : g.pendingLoadMore = false := by simpa using hl
        simp only [hlf, Bool.false_eq_true, if_false] at hst ⊢
        rw [hst, h2ld]
        rfl

/-- C10 witness: on `exG` (pending `design` filter and pending load-more
over nine `design` items) initialization replays the filter and then one
extra batch, rendering all nine item elements; and a concrete pre-init
click sequence retains the last filter value and the load-more flag while
leaving the state untouched. -/
theorem c10_witness :
    (init exG).st.renderedCount
      = min 16 (computeFiltered (exG.st.listDom.map captureItem)
          (jsToLower "design")).length
    ∧ ([Click.onFilter 1, Click.onLoadMore, Click.onFilter 0].foldl
        interceptClick exG).st = exG.st
    ∧ ([Click.onFilter 1, Click.onLoadMore, Click.onFilter 0].foldl
        interceptClick exG).pendingFilter
      = lastPendingFilter exG.st.filterBtns exG.pendingFilter
          [Click.onFilter 1, Click.onLoadMore, Click.onFilter 0] := by
  have ha := c10_pending_queue_and_replay.1 exG
    [Click.onFilter 1, Click.onLoadMore, Click.onFilter 0] (by decide)
  have hb := c10_pending_queue_and_replay.2 exG "design"
    (by decide) (by decide) (by decide) (by decide)
  exact ⟨hb.1, ha.1, ha.2.2.2⟩

end Portfolio
